import Mathlib

/-!
# ddns-updater: the per-record models (`pkg/models`)

A shallow embedding of `settings.go` (`SettingsType` and its methods) and of
`recordconfig.go` (`RecordConfigType`, `NewRecordConfig`, `toHTML`), followed by their
properties.

Conventions of the embedding:

* a Go `string` is a Lean `String` (the Go strings that are valid UTF-8); `len(s)` is
  the byte length `String.utf8ByteSize`;
* a Go `error` is an `Option String`: `none` is `nil`, `some msg` is an error whose
  `Error()` text is `msg` (every error of this package is built by `fmt.Errorf`);
* `fmt.Sprintf`/`fmt.Errorf` with `%s` verbs is string concatenation, a value with a
  `String()` method being printed through that method;
* a Go `[]string` is a slice header on a backing array held in an explicit memory
  (`Heap`), which the operations of `recordconfig.go` take and return.
-/

namespace Models

/-! ## Data model -/

/-- Modelled from the spec: the declaration of `ProviderType` and of its constants is not
in `settings.go`. The spec gives `provider: enum{Namecheap, GoDaddy, DuckDNS, Dreamhost,
Cloudflare}`; the five constants are the ones `Verify` switches on, and `other code`
stands for every further value of the type, which the `default:` branch of `Verify`
handles. -/
inductive ProviderType where
  | PROVIDERNAMECHEAP
  | PROVIDERGODADDY
  | PROVIDERDUCKDNS
  | PROVIDERDREAMHOST
  | PROVIDERCLOUDFLARE
  | other (code : Nat)
  deriving DecidableEq, Repr

/-- Modelled from the spec: the declaration of `IPMethodType` and of its constants is not
in `settings.go`. The spec gives `ipMethod: enum{Provider, DuckDuckGo, OpenDNS, …}`; the
three constants are the ones `getHTMLIPMethod` switches on, and `other code` stands for
every further value. -/
inductive IPMethodType where
  | IPMETHODPROVIDER
  | IPMETHODDUCKDUCKGO
  | IPMETHODOPENDNS
  | other (code : Nat)
  deriving DecidableEq, Repr

open ProviderType IPMethodType

/-- The matchers of package `ddns-updater/pkg/regex`, which `settings.go` imports and
whose source is not part of `pkg/models`: each one is a parameter of the embedding. -/
structure Regex where
  MatchDomain : String → Bool
  MatchNamecheapPassword : String → Bool
  MatchGodaddyKey : String → Bool
  MatchGodaddySecret : String → Bool
  MatchDuckDNSToken : String → Bool
  MatchDreamhostKey : String → Bool
  MatchCloudflareKey : String → Bool
  MatchEmail : String → Bool
  MatchCloudflareUserServiceKey : String → Bool

/-- The `String()` methods of `ProviderType` and `IPMethodType` (called at
`settings.go:59` and `settings.go:73`, and by the `%s` verbs of `String` and `Verify`),
declared outside `settings.go`: parameters of the embedding. -/
structure Stringers where
  provider : ProviderType → String
  ipMethod : IPMethodType → String

/-- Go's predeclared type `string`. -/
abbrev string := String

/-- A Go `error`: `none` is `nil`, `some msg` is an error with text `msg`. -/
abbrev error := Option string

/-- Go's `len` on a string: its length in bytes. -/
def len (s : string) : Nat := s.utf8ByteSize

/-- The structure `SettingsType` of `settings.go:10`; `time.Duration` is an `int64`
count of nanoseconds. -/
structure SettingsType where
  Domain : String
  Host : String
  Provider : ProviderType
  IPmethod : IPMethodType
  Delay : Int
  NoDNSLookup : Bool
  Password : String
  Key : String
  Secret : String
  Token : String
  Email : String
  UserServiceKey : String
  ZoneIdentifier : String
  Identifier : String
  Proxied : Bool
  deriving DecidableEq, Repr

/-! ## Operations of `settings.go` -/

/-- `func (settings *SettingsType) String()`, `settings.go:29`:
`fmt.Sprintf("%s | %s | %s | %s", Domain, Host, Provider, IPmethod)`. -/
def SettingsType.String (str : Stringers) (settings : SettingsType) : string :=
  settings.Domain ++ " | " ++ settings.Host ++ " | " ++ str.provider settings.Provider
    ++ " | " ++ str.ipMethod settings.IPmethod

/-- `func (settings *SettingsType) BuildDomainName()`, `settings.go:34`. -/
def SettingsType.BuildDomainName (settings : SettingsType) : string :=
  if settings.Host = "@" then
    settings.Domain
  else if settings.Host = "*" then
    settings.Domain
  else
    settings.Host ++ "." ++ settings.Domain

/-- `func (settings *SettingsType) Verify() error`, `settings.go:78`. The checks are
made in the order of the source and the first failing one returns; `%s` applied to
`settings` prints `settings.String()`. -/
def SettingsType.Verify (regex : Regex) (str : Stringers) (settings : SettingsType) :
    error :=
  if !regex.MatchDomain settings.Domain then
    some ("the domain name " ++ settings.Domain ++ " is not valid for settings "
      ++ settings.String str)
  else if len settings.Host == 0 then
    some ("the host for entry " ++ settings.String str
      ++ " must have at least one character")
  else
    match settings.Provider with
    | PROVIDERNAMECHEAP =>
      if !regex.MatchNamecheapPassword settings.Password then
        some ("the Namecheap password is not valid for settings " ++ settings.String str)
      else none
    | PROVIDERGODADDY =>
      if !regex.MatchGodaddyKey settings.Key then
        some ("the GoDaddy key is not valid for settings " ++ settings.String str)
      else if !regex.MatchGodaddySecret settings.Secret then
        some ("the GoDaddy secret is not valid for settings " ++ settings.String str)
      else if settings.IPmethod = IPMETHODPROVIDER then
        some ("the provider " ++ str.provider settings.Provider
          ++ " does not support the IP update method " ++ str.ipMethod settings.IPmethod)
      else none
    | PROVIDERDUCKDNS =>
      if !regex.MatchDuckDNSToken settings.Token then
        some ("the DuckDNS token is not valid for settings " ++ settings.String str)
      else if settings.Host ≠ "@" then
        some ("the host " ++ settings.Host ++ " can only be @ for settings "
          ++ settings.String str)
      else none
    | PROVIDERDREAMHOST =>
      if !regex.MatchDreamhostKey settings.Key then
        some ("the Dreamhost key is not valid for settings " ++ settings.String str)
      else if settings.Host ≠ "@" then
        some ("the host " ++ settings.Host ++ " can only be @ for settings "
          ++ settings.String str)
      else if settings.IPmethod = IPMETHODPROVIDER then
        some ("the provider " ++ str.provider settings.Provider
          ++ " does not support the IP update method " ++ str.ipMethod settings.IPmethod)
      else none
    | PROVIDERCLOUDFLARE =>
      -- the `if settings.UserServiceKey == "" { ... } else { ... }` statement; `none`
      -- when it falls through to the statements after it
      let auth : error :=
        if settings.UserServiceKey = "" then
          if !regex.MatchCloudflareKey settings.Key then
            some ("the Cloudflare key is not valid for settings " ++ settings.String str)
          else if !regex.MatchEmail settings.Email then
            some ("the Cloudflare email " ++ settings.Email
              ++ " is not valid for settings " ++ settings.String str)
          else none
        else
          if !regex.MatchCloudflareUserServiceKey settings.UserServiceKey then
            some ("the Cloudflare user service key is not valid for settings "
              ++ settings.String str)
          else none
      match auth with
      | some err => some err
      | none =>
        if len settings.ZoneIdentifier == 0 then
          some "Cloudflare zone identifier was not provided"
        else if len settings.Identifier == 0 then
          some "Cloudflare identifier was not provided"
        else if settings.IPmethod = IPMETHODPROVIDER then
          some ("the provider " ++ str.provider settings.Provider
            ++ " does not support the IP update method " ++ str.ipMethod settings.IPmethod)
        else none
    | ProviderType.other _ =>
      some ("provider " ++ str.provider settings.Provider ++ " is not supported")

/-- The call `settings.Verify()` as a step on the pointee of its receiver: the value of
`*settings` after the call, with the error returned. The body of `Verify` (and of
`String`, which it calls) reads fields of `settings` and holds no assignment, so the
pointee after the call is the pointee before it. -/
def SettingsType.VerifyStep (regex : Regex) (str : Stringers) (settings : SettingsType) :
    SettingsType × error :=
  (settings, settings.Verify regex str)

/-- The call `settings.BuildDomainName()` as a step on the pointee of its receiver: the
value of `*settings` after the call, with the string returned. The body reads `Host`
and `Domain` and holds no assignment. -/
def SettingsType.BuildDomainNameStep (settings : SettingsType) : SettingsType × string :=
  (settings, settings.BuildDomainName)

/-- `func (settings *SettingsType) getHTMLDomain()`, `settings.go:44`. -/
def SettingsType.getHTMLDomain (settings : SettingsType) : string :=
  "<a href=\"http://" ++ settings.BuildDomainName ++ "\">" ++ settings.Domain ++ "</a>"

/-- `func (settings *SettingsType) getHTMLProvider()`, `settings.go:48`. -/
def SettingsType.getHTMLProvider (str : Stringers) (settings : SettingsType) : string :=
  match settings.Provider with
  | PROVIDERNAMECHEAP => "<a href=\"https://namecheap.com\">Namecheap</a>"
  | PROVIDERGODADDY => "<a href=\"https://godaddy.com\">GoDaddy</a>"
  | PROVIDERDUCKDNS => "<a href=\"https://duckdns.org\">DuckDNS</a>"
  | PROVIDERDREAMHOST => "<a href=\"https://https://www.dreamhost.com/\">Dreamhost</a>"
  | _ => str.provider settings.Provider

/-- `func (settings *SettingsType) getHTMLIPMethod()`, `settings.go:64`. -/
def SettingsType.getHTMLIPMethod (str : Stringers) (settings : SettingsType) : string :=
  match settings.IPmethod with
  | IPMETHODPROVIDER => settings.getHTMLProvider str
  | IPMETHODDUCKDUCKGO => "<a href=\"https://duckduckgo.com/?q=ip\">DuckDuckGo</a>"
  | IPMETHODOPENDNS => "<a href=\"https://diagnostic.opendns.com/myip\">OpenDNS</a>"
  | _ => str.ipMethod settings.IPmethod

/-! ## Memory: slices and their backing arrays

`recordconfig.go` holds the IP history in a `[]string`, re-slices it and assigns to
elements of the re-slice. A slice is a window on a backing array, so the arrays live in
an explicit memory that the operations pass along. -/

/-- A Go slice header of type `[]string`: the backing array it points to, the index in
that array of its element 0, its length and its capacity. -/
structure Slice where
  ptr : Nat
  off : Nat
  len : Nat
  cap : Nat
  deriving DecidableEq, Repr

/-- The `nil` slice. -/
def Slice.nil : Slice := ⟨0, 0, 0, 0⟩

/-- The slice expression `s[1:]`: same backing array, starting one element further
(used at `recordconfig.go:51`, under the guard `len(s) > 1`). -/
def Slice.from1 (s : Slice) : Slice :=
  ⟨s.ptr, s.off + 1, s.len - 1, s.cap - 1⟩

/-- The memory: the backing arrays allocated so far, the array at address `p` being
`arrays[p]`, and the number of mutexes allocated so far. -/
structure Heap where
  arrays : List (List string)
  mutexes : Nat
  deriving DecidableEq, Repr

/-- The backing array of a slice. -/
def Heap.array (heap : Heap) (s : Slice) : List string :=
  heap.arrays.getD s.ptr []

/-- The index expression `s[i]`. Every use in `recordconfig.go` is guarded by
`i < len(s)`, so the out-of-range panic is not modelled. -/
def Heap.index (heap : Heap) (s : Slice) (i : Nat) : string :=
  (heap.array s).getD (s.off + i) ""

/-- The assignment `s[i] = v`: element `off + i` of the backing array is overwritten, for
every slice that shares the array. -/
def Heap.store (heap : Heap) (s : Slice) (i : Nat) (v : string) : Heap :=
  { heap with arrays := heap.arrays.set s.ptr ((heap.array s).set (s.off + i) v) }

/-- A composite literal `[]string{...}`: a fresh backing array holding `xs` and the
slice of all of it. -/
def Heap.alloc (heap : Heap) (xs : List string) : Slice × Heap :=
  (⟨heap.arrays.length, 0, xs.length, xs.length⟩,
    { heap with arrays := heap.arrays ++ [xs] })

/-- `new(sync.RWMutex)`: the address of a fresh mutex. -/
def Heap.newMutex (heap : Heap) : Nat × Heap :=
  (heap.mutexes, { heap with mutexes := heap.mutexes + 1 })

/-- The elements `s[0], ..., s[len(s)-1]` of a slice, read from the memory. -/
def Heap.elems (heap : Heap) (s : Slice) : List string :=
  ((heap.array s).drop s.off).take s.len

/-- A slice is within its backing array. The `nil` slice is, in every memory. -/
def Heap.valid (heap : Heap) (s : Slice) : Prop :=
  s.off + s.len ≤ (heap.array s).length

instance (heap : Heap) (s : Slice) : Decidable (heap.valid s) :=
  inferInstanceAs (Decidable (s.off + s.len ≤ (heap.array s).length))

/-! ## Data model of `recordconfig.go` -/

/-- Go's `time.Time`, as an instant counted in nanoseconds. -/
abbrev Time := Int

/-- Modelled from the spec: the type of `statusType.Code` is declared outside
`recordconfig.go`. The spec gives `code: enum{UpToDate, Updating, Failed, ...}`; a Go
enumeration is an integer type, whose zero value is `0`. -/
abbrev statusCode := Nat

/-- Modelled from the spec: `statusType` is declared outside `recordconfig.go`, which
uses its fields `Code` and `Message`; the spec gives
`Status: {code: enum{...}, message: string}`. -/
structure statusType where
  Code : statusCode
  Message : string
  deriving DecidableEq, Repr

/-- Modelled from the spec: `historyType` is declared outside `recordconfig.go`, which
builds it from the fields `IPs` (a `[]string`, from the parameter of `NewRecordConfig`)
and `TSuccess` (a `time.Time`); the spec gives
`History: {ips: ordered sequence of string, lastSuccessTime: timestamp}`. -/
structure historyType where
  IPs : Slice
  TSuccess : Time
  deriving DecidableEq, Repr

/-- Modelled from the spec: `HTMLRow` is declared outside `recordconfig.go`, which
assigns its fields `Domain`, `Host`, `Provider`, `IPMethod`, `Status`, `IP` (strings)
and `IPs` (a `[]string`); the spec gives `Row{domainLink, host, providerLink,
ipMethodLink, statusHTML, currentIP, priorIPs}`. -/
structure HTMLRow where
  Domain : string
  Host : string
  Provider : string
  IPMethod : string
  Status : string
  IP : string
  IPs : Slice
  deriving DecidableEq, Repr

/-- What `toHTML` uses and `recordconfig.go` does not declare: the constant `UPTODATE`,
the function `durationString` (the time elapsed since an instant, as text, at the
moment of the call) and the method `statusType.toHTML`. Parameters of the embedding. -/
structure Display where
  UPTODATE : statusCode
  durationString : Time → string
  statusToHTML : statusType → string

/-- The structure `RecordConfigType` of `recordconfig.go:9`; `M` is the address of the
record's `sync.RWMutex`. -/
structure RecordConfigType where
  Settings : SettingsType
  Status : statusType
  History : historyType
  M : Nat
  deriving DecidableEq, Repr

/-! ## Operations of `recordconfig.go` -/

/-- `func NewRecordConfig(settings, IPs, tSuccess)`, `recordconfig.go:17`: `Status` is
not named in the composite literal and so is the zero `statusType`; `M` is a freshly
allocated mutex. -/
def NewRecordConfig (heap : Heap) (settings : SettingsType) (IPs : Slice)
    (tSuccess : Time) : RecordConfigType × Heap :=
  let (m, heap1) := heap.newMutex
  ({ Settings := settings
     Status := { Code := 0, Message := "" }
     History := { IPs := IPs, TSuccess := tSuccess }
     M := m }, heap1)

/-- The loop of `recordconfig.go:52-57` over the indices of `ips`:
`for i := range ips { if i == len(ips)-1 { break }; ips[i] += ", " }`.
`remaining` iterations are left, so the current index is `len(ips) - remaining`. -/
def toHTMLLoop (ips : Slice) : Nat → Heap → Heap
  | 0, heap => heap
  | remaining + 1, heap =>
    let i := ips.len - (remaining + 1)
    if i = ips.len - 1 then
      heap
    else
      toHTMLLoop ips remaining (heap.store ips i (heap.index ips i ++ ", "))

/-- `func (conf RecordConfigType) toHTML() HTMLRow`, `recordconfig.go:34`. The receiver
is passed by value, so the assignment to `conf.Status.Message` stays local; the slice
`conf.History.IPs` is copied as a header and still points to the caller's backing
array. Returns the row and the memory after the call. -/
def RecordConfigType.toHTML (d : Display) (str : Stringers) (heap : Heap)
    (conf : RecordConfigType) : HTMLRow × Heap :=
  let status : statusType :=
    if conf.Status.Code = d.UPTODATE then
      { conf.Status with
        Message := "No IP change for " ++ d.durationString conf.History.TSuccess }
    else conf.Status
  let ip : string :=
    if conf.History.IPs.len > 0 then
      "<a href=\"https://ipinfo.io/" ++ heap.index conf.History.IPs 0 ++ "\">"
        ++ heap.index conf.History.IPs 0 ++ "</a>"
    else "N/A"
  let (ips, heap1) : Slice × Heap :=
    if conf.History.IPs.len > 1 then
      (conf.History.IPs.from1,
        toHTMLLoop conf.History.IPs.from1 conf.History.IPs.from1.len heap)
    else heap.alloc ["N/A"]
  ({ Domain := conf.Settings.getHTMLDomain
     Host := conf.Settings.Host
     Provider := conf.Settings.getHTMLProvider str
     IPMethod := conf.Settings.getHTMLIPMethod str
     Status := d.statusToHTML status
     IP := ip
     IPs := ips }, heap1)

/-- Modelled from the spec: `applyOutcome(newIP, succeeded, message)`, the write
operation of the spec (section 4.2), has no code in `recordconfig.go` or `settings.go`.
By the spec it "updates Status.code/message always; appends newIP to History only if it
differs from the current `ips[0]`; updates `lastSuccessTime` only when `succeeded` is
true", to the observation time `now` of the outcome. `History.ips` is most recent
first, so the new IP is put in front, in a fresh backing array (the spec's example: from
`["1.2.3.4"]`, `"5.6.7.8"` gives `["5.6.7.8", "1.2.3.4"]`). The spec does not name the
code written for an outcome: it is the parameter `codeOf`. An empty history has no
current IP to compare with, and takes `newIP`. -/
def RecordConfigType.applyOutcome (codeOf : Bool → statusCode) (now : Time) (heap : Heap)
    (conf : RecordConfigType) (newIP : string) (succeeded : Bool) (message : string) :
    RecordConfigType × Heap :=
  let status : statusType := { Code := codeOf succeeded, Message := message }
  let tSuccess : Time := if succeeded then now else conf.History.TSuccess
  if 0 < conf.History.IPs.len ∧ heap.index conf.History.IPs 0 = newIP then
    ({ conf with
        Status := status
        History := { IPs := conf.History.IPs, TSuccess := tSuccess } }, heap)
  else
    ({ conf with
        Status := status
        History :=
          { IPs := (heap.alloc (newIP :: heap.elems conf.History.IPs)).1
            TSuccess := tSuccess } },
      (heap.alloc (newIP :: heap.elems conf.History.IPs)).2)

/-! ## A concrete instance of the parameters

Used to evaluate `Verify` on concrete records. -/

/-- A sample of the `regex` package: each matcher accepts one fixed well-formed value
and rejects everything else, the empty string included. -/
def sampleRegex : Regex where
  MatchDomain := fun s => s == "example.com"
  MatchNamecheapPassword := fun s => s == "0123456789abcdef0123456789abcdef"
  MatchGodaddyKey := fun s => s == "gdkey"
  MatchGodaddySecret := fun s => s == "gdsecret"
  MatchDuckDNSToken := fun s => s == "valid-token-format"
  MatchDreamhostKey := fun s => s == "dhkey0123456789a"
  MatchCloudflareKey := fun s => s == "cfkey"
  MatchEmail := fun s => s == "me@example.com"
  MatchCloudflareUserServiceKey := fun s => s == "v1.0-usk"

/-- A sample of the two `String()` methods. -/
def sampleStringers : Stringers where
  provider := fun p =>
    match p with
    | PROVIDERNAMECHEAP => "namecheap"
    | PROVIDERGODADDY => "godaddy"
    | PROVIDERDUCKDNS => "duckdns"
    | PROVIDERDREAMHOST => "dreamhost"
    | PROVIDERCLOUDFLARE => "cloudflare"
    | ProviderType.other _ => "unknown"
  ipMethod := fun m =>
    match m with
    | IPMETHODPROVIDER => "provider"
    | IPMETHODDUCKDUCKGO => "duckduckgo"
    | IPMETHODOPENDNS => "opendns"
    | IPMethodType.other _ => "unknown"

/-- The zero value of `SettingsType` but for the four shared fields. -/
def blank (domain host : string) (provider : ProviderType) (ipMethod : IPMethodType) :
    SettingsType where
  Domain := domain
  Host := host
  Provider := provider
  IPmethod := ipMethod
  Delay := 0
  NoDNSLookup := false
  Password := ""
  Key := ""
  Secret := ""
  Token := ""
  Email := ""
  UserServiceKey := ""
  ZoneIdentifier := ""
  Identifier := ""
  Proxied := false

/-- A GoDaddy record with the sample credentials. -/
def sampleGodaddy (host : string) (ipMethod : IPMethodType) : SettingsType :=
  { blank "example.com" host PROVIDERGODADDY ipMethod with
    Key := "gdkey", Secret := "gdsecret" }

/-- The record `sampleGodaddy "@" IPMETHODPROVIDER` with every field that is not
meaningful for GoDaddy changed. -/
def sampleGodaddyOther : SettingsType :=
  { sampleGodaddy "@" IPMETHODPROVIDER with
    Delay := 600000000000, NoDNSLookup := true, Password := "p", Token := "t",
    Email := "e", UserServiceKey := "u", ZoneIdentifier := "z", Identifier := "i",
    Proxied := true }

/-- A DuckDNS record with the sample token. -/
def sampleDuckDNS (host : string) (ipMethod : IPMethodType) : SettingsType :=
  { blank "example.com" host PROVIDERDUCKDNS ipMethod with Token := "valid-token-format" }

/-- A Cloudflare record authenticated by key and email. -/
def sampleCloudflareKey (ipMethod : IPMethodType) : SettingsType :=
  { blank "example.com" "www" PROVIDERCLOUDFLARE ipMethod with
    Key := "cfkey", Email := "me@example.com", ZoneIdentifier := "zone", Identifier := "id" }

/-- A Cloudflare record authenticated by a user service key. -/
def sampleCloudflareUSK (ipMethod : IPMethodType) : SettingsType :=
  { blank "example.com" "www" PROVIDERCLOUDFLARE ipMethod with
    UserServiceKey := "v1.0-usk", ZoneIdentifier := "zone", Identifier := "id" }

/-- A record of a provider outside the five that `Verify` knows. -/
def sampleUnknown : SettingsType :=
  blank "example.com" "@" (ProviderType.other 7) IPMETHODOPENDNS

/-- A sample of what `toHTML` takes from outside `recordconfig.go`. -/
def sampleDisplay : Display where
  UPTODATE := 1
  durationString := fun t => if t ≤ 0 then "a long time" else "3h0m0s"
  statusToHTML := fun st => "<b>" ++ st.Message ++ "</b>"

/-- A memory holding one backing array of IPs (at address `0`) and one mutex. -/
def sampleHeap (ips : List string) : Heap :=
  { arrays := [ips], mutexes := 1 }

/-- A record whose `History.IPs` is the whole of the array of `sampleHeap ips`. -/
def sampleRecord (ips : List string) (code : statusCode) (message : string) :
    RecordConfigType :=
  { Settings := sampleDuckDNS "@" IPMETHODDUCKDUCKGO
    Status := { Code := code, Message := message }
    History := { IPs := ⟨0, 0, ips.length, ips.length⟩, TSuccess := 1700000000 }
    M := 0 }

/-- Three addresses, most recent first. -/
def threeIPs : List string := ["1.1.1.1", "2.2.2.2", "3.3.3.3"]

/-- Go's `strings.Contains(s, substr)`: `substr` occurs in `s` as a contiguous run. -/
def Contains (s substr : string) : Prop := substr.data <:+: s.data

instance (s substr : string) : Decidable (Contains s substr) :=
  inferInstanceAs (Decidable (substr.data <:+: s.data))

/-! ## Vocabulary of the single-defect and frame properties

These definitions name what the properties below speak about (which fields a provider
requires, what an unacceptable value is, when two records agree); they are not part of
`settings.go`. -/

/-- The string fields of `SettingsType` that `Verify` reads. -/
inductive Field where
  | Domain | Host | Password | Key | Secret | Token | Email | UserServiceKey
  | ZoneIdentifier | Identifier
  deriving DecidableEq, Repr

/-- The value of a field of a record. -/
def SettingsType.get (settings : SettingsType) (f : Field) : string :=
  match f with
  | Field.Domain => settings.Domain
  | Field.Host => settings.Host
  | Field.Password => settings.Password
  | Field.Key => settings.Key
  | Field.Secret => settings.Secret
  | Field.Token => settings.Token
  | Field.Email => settings.Email
  | Field.UserServiceKey => settings.UserServiceKey
  | Field.ZoneIdentifier => settings.ZoneIdentifier
  | Field.Identifier => settings.Identifier

/-- The record with one field replaced by `v`, every other field kept. -/
def SettingsType.set (settings : SettingsType) (f : Field) (v : string) : SettingsType :=
  match f with
  | Field.Domain => { settings with Domain := v }
  | Field.Host => { settings with Host := v }
  | Field.Password => { settings with Password := v }
  | Field.Key => { settings with Key := v }
  | Field.Secret => { settings with Secret := v }
  | Field.Token => { settings with Token := v }
  | Field.Email => { settings with Email := v }
  | Field.UserServiceKey => { settings with UserServiceKey := v }
  | Field.ZoneIdentifier => { settings with ZoneIdentifier := v }
  | Field.Identifier => { settings with Identifier := v }

/-- The required fields of a record: `Domain` and `Host` for every provider, and the
credential fields of the record's provider; for Cloudflare the fields of the
authentication scheme in use (key and email when `UserServiceKey` is empty, the user
service key otherwise) and the two identifiers. -/
def SettingsType.required (settings : SettingsType) (f : Field) : Bool :=
  match f with
  | Field.Domain => true
  | Field.Host => true
  | Field.Password => settings.Provider = PROVIDERNAMECHEAP
  | Field.Key =>
    settings.Provider = PROVIDERGODADDY ∨ settings.Provider = PROVIDERDREAMHOST
      ∨ (settings.Provider = PROVIDERCLOUDFLARE ∧ settings.UserServiceKey = "")
  | Field.Secret => settings.Provider = PROVIDERGODADDY
  | Field.Token => settings.Provider = PROVIDERDUCKDNS
  | Field.Email => settings.Provider = PROVIDERCLOUDFLARE ∧ settings.UserServiceKey = ""
  | Field.UserServiceKey =>
    settings.Provider = PROVIDERCLOUDFLARE ∧ settings.UserServiceKey ≠ ""
  | Field.ZoneIdentifier => settings.Provider = PROVIDERCLOUDFLARE
  | Field.Identifier => settings.Provider = PROVIDERCLOUDFLARE

/-- A minimal record: every field that is not required is empty, so only the
provider's own credential fields, and for Cloudflare only one of the two authentication
schemes, are filled in. -/
def SettingsType.minimal (settings : SettingsType) : Prop :=
  ∀ f : Field, settings.required f = false → settings.get f = ""

/-- The grammar of a field for a provider, as `Verify` applies it: the matcher of the
`regex` package for `Domain` and the credentials, `"@"` for the host of a DuckDNS or
Dreamhost record. A field without a grammar (the host of the other providers, the two
Cloudflare identifiers) has every value pass here: the only defect it can have is to
be empty. -/
def matchesGrammar (regex : Regex) (provider : ProviderType) (f : Field) (v : string) :
    Bool :=
  match f with
  | Field.Domain => regex.MatchDomain v
  | Field.Host =>
    if provider = PROVIDERDUCKDNS ∨ provider = PROVIDERDREAMHOST then v = "@" else true
  | Field.Password => regex.MatchNamecheapPassword v
  | Field.Key =>
    match provider with
    | PROVIDERGODADDY => regex.MatchGodaddyKey v
    | PROVIDERDREAMHOST => regex.MatchDreamhostKey v
    | PROVIDERCLOUDFLARE => regex.MatchCloudflareKey v
    | _ => true
  | Field.Secret => regex.MatchGodaddySecret v
  | Field.Token => regex.MatchDuckDNSToken v
  | Field.Email => regex.MatchEmail v
  | Field.UserServiceKey => regex.MatchCloudflareUserServiceKey v
  | Field.ZoneIdentifier => true
  | Field.Identifier => true

/-- Two records agree on the fields meaningful for their provider: on `Domain`, `Host`,
`Provider`, `IPmethod` and on the credential fields of that provider. Nothing is asked
of `Delay`, `NoDNSLookup`, `Proxied` or of the other providers' credential fields. -/
def SettingsType.agree (a b : SettingsType) : Prop :=
  a.Domain = b.Domain ∧ a.Host = b.Host ∧ a.Provider = b.Provider
    ∧ a.IPmethod = b.IPmethod
    ∧ match a.Provider with
      | PROVIDERNAMECHEAP => a.Password = b.Password
      | PROVIDERGODADDY => a.Key = b.Key ∧ a.Secret = b.Secret
      | PROVIDERDUCKDNS => a.Token = b.Token
      | PROVIDERDREAMHOST => a.Key = b.Key
      | PROVIDERCLOUDFLARE =>
        a.Key = b.Key ∧ a.Email = b.Email ∧ a.UserServiceKey = b.UserServiceKey
          ∧ a.ZoneIdentifier = b.ZoneIdentifier ∧ a.Identifier = b.Identifier
      | ProviderType.other _ => True

/-- A list of strings with the separator `", "` appended to every element but the
last. -/
def separated : List string → List string
  | [] => []
  | [x] => [x]
  | x :: y :: rest => (x ++ ", ") :: separated (y :: rest)

/-- One check of a validation: whether it fails, and the error text it then reports. -/
structure Check where
  failed : Bool
  message : string

/-- The error of the first failing check of a list, `nil` when none fails. -/
def firstFailing : List Check → error
  | [] => none
  | c :: cs => if c.failed then some c.message else firstFailing cs

/-- The credential checks of a record's provider, in order. For Cloudflare: the checks
of the authentication scheme in use, then the zone identifier and the identifier. A
provider outside the five fails at once as unsupported. -/
def SettingsType.credentialChecks (regex : Regex) (str : Stringers)
    (settings : SettingsType) : List Check :=
  match settings.Provider with
  | PROVIDERNAMECHEAP =>
    [⟨!regex.MatchNamecheapPassword settings.Password,
      "the Namecheap password is not valid for settings " ++ settings.String str⟩]
  | PROVIDERGODADDY =>
    [⟨!regex.MatchGodaddyKey settings.Key,
      "the GoDaddy key is not valid for settings " ++ settings.String str⟩,
     ⟨!regex.MatchGodaddySecret settings.Secret,
      "the GoDaddy secret is not valid for settings " ++ settings.String str⟩]
  | PROVIDERDUCKDNS =>
    [⟨!regex.MatchDuckDNSToken settings.Token,
      "the DuckDNS token is not valid for settings " ++ settings.String str⟩]
  | PROVIDERDREAMHOST =>
    [⟨!regex.MatchDreamhostKey settings.Key,
      "the Dreamhost key is not valid for settings " ++ settings.String str⟩]
  | PROVIDERCLOUDFLARE =>
    (if settings.UserServiceKey = "" then
      [⟨!regex.MatchCloudflareKey settings.Key,
        "the Cloudflare key is not valid for settings " ++ settings.String str⟩,
       ⟨!regex.MatchEmail settings.Email,
        "the Cloudflare email " ++ settings.Email ++ " is not valid for settings "
          ++ settings.String str⟩]
    else
      [⟨!regex.MatchCloudflareUserServiceKey settings.UserServiceKey,
        "the Cloudflare user service key is not valid for settings "
          ++ settings.String str⟩])
    ++ [⟨settings.ZoneIdentifier = "", "Cloudflare zone identifier was not provided"⟩,
        ⟨settings.Identifier = "", "Cloudflare identifier was not provided"⟩]
  | ProviderType.other _ =>
    [⟨true, "provider " ++ str.provider settings.Provider ++ " is not supported"⟩]

/-- The check `Host == "@"`, made for DuckDNS and Dreamhost only. -/
def SettingsType.hostAtChecks (str : Stringers) (settings : SettingsType) : List Check :=
  if settings.Provider = PROVIDERDUCKDNS ∨ settings.Provider = PROVIDERDREAMHOST then
    [⟨settings.Host ≠ "@",
      "the host " ++ settings.Host ++ " can only be @ for settings " ++ settings.String str⟩]
  else []

/-- The restriction on the IP method, made for GoDaddy, Dreamhost and Cloudflare only. -/
def SettingsType.ipMethodChecks (str : Stringers) (settings : SettingsType) : List Check :=
  if settings.Provider = PROVIDERGODADDY ∨ settings.Provider = PROVIDERDREAMHOST
      ∨ settings.Provider = PROVIDERCLOUDFLARE then
    [⟨settings.IPmethod = IPMETHODPROVIDER,
      "the provider " ++ str.provider settings.Provider
        ++ " does not support the IP update method " ++ str.ipMethod settings.IPmethod⟩]
  else []

/-- The checks of a record in the fixed order: the domain, the host being non-empty,
then the provider's checks: credentials first, then `Host == "@"`, then the IP
method. -/
def SettingsType.orderedChecks (regex : Regex) (str : Stringers)
    (settings : SettingsType) : List Check :=
  [⟨!regex.MatchDomain settings.Domain,
      "the domain name " ++ settings.Domain ++ " is not valid for settings "
        ++ settings.String str⟩,
    ⟨settings.Host = "",
      "the host for entry " ++ settings.String str ++ " must have at least one character"⟩]
    ++ settings.credentialChecks regex str ++ settings.hostAtChecks str
    ++ settings.ipMethodChecks str

/-- Every matcher of the `regex` package rejects the empty string. -/
def Regex.rejectsEmpty (regex : Regex) : Prop :=
  regex.MatchDomain "" = false ∧ regex.MatchNamecheapPassword "" = false
    ∧ regex.MatchGodaddyKey "" = false ∧ regex.MatchGodaddySecret "" = false
    ∧ regex.MatchDuckDNSToken "" = false ∧ regex.MatchDreamhostKey "" = false
    ∧ regex.MatchCloudflareKey "" = false ∧ regex.MatchEmail "" = false
    ∧ regex.MatchCloudflareUserServiceKey "" = false

/-! ## Auxiliary facts -/

theorem len_eq_zero_iff (s : string) : len s = 0 ↔ s = "" := by
  rcases s with ⟨l⟩
  cases l with
  | nil => simp [len, String.utf8ByteSize, String.utf8ByteSize.go]
  | cons c cs =>
    have hc := Char.utf8Size_pos c
    have hne : (⟨c :: cs⟩ : String) ≠ "" := by
      intro h
      have := congrArg String.data h
      simp at this
    simp only [len, String.utf8ByteSize, String.utf8ByteSize.go, hne, iff_false]
    omega

/-- When `Verify` accepts a Namecheap record. -/
theorem verify_namecheap_iff (regex : Regex) (str : Stringers) (settings : SettingsType)
    (hp : settings.Provider = PROVIDERNAMECHEAP) :
    settings.Verify regex str = none ↔
      regex.MatchDomain settings.Domain = true ∧ settings.Host ≠ ""
        ∧ regex.MatchNamecheapPassword settings.Password = true := by
  have hH := len_eq_zero_iff settings.Host
  unfold SettingsType.Verify
  simp only [hp]
  split_ifs <;> simp_all

/-- When `Verify` accepts a GoDaddy record. -/
theorem verify_godaddy_iff (regex : Regex) (str : Stringers) (settings : SettingsType)
    (hp : settings.Provider = PROVIDERGODADDY) :
    settings.Verify regex str = none ↔
      regex.MatchDomain settings.Domain = true ∧ settings.Host ≠ ""
        ∧ regex.MatchGodaddyKey settings.Key = true
        ∧ regex.MatchGodaddySecret settings.Secret = true
        ∧ settings.IPmethod ≠ IPMETHODPROVIDER := by
  have hH := len_eq_zero_iff settings.Host
  unfold SettingsType.Verify
  simp only [hp]
  split_ifs <;> simp_all

/-- When `Verify` accepts a DuckDNS record. -/
theorem verify_duckdns_iff (regex : Regex) (str : Stringers) (settings : SettingsType)
    (hp : settings.Provider = PROVIDERDUCKDNS) :
    settings.Verify regex str = none ↔
      regex.MatchDomain settings.Domain = true
        ∧ regex.MatchDuckDNSToken settings.Token = true
        ∧ settings.Host = "@" := by
  have hH := len_eq_zero_iff settings.Host
  have hat : settings.Host = "@" → settings.Host ≠ "" := by
    intro h; rw [h]; decide
  unfold SettingsType.Verify
  simp only [hp]
  split_ifs <;> simp_all

/-- When `Verify` accepts a Dreamhost record. -/
theorem verify_dreamhost_iff (regex : Regex) (str : Stringers) (settings : SettingsType)
    (hp : settings.Provider = PROVIDERDREAMHOST) :
    settings.Verify regex str = none ↔
      regex.MatchDomain settings.Domain = true
        ∧ regex.MatchDreamhostKey settings.Key = true
        ∧ settings.Host = "@"
        ∧ settings.IPmethod ≠ IPMETHODPROVIDER := by
  have hH := len_eq_zero_iff settings.Host
  have hat : settings.Host = "@" → settings.Host ≠ "" := by
    intro h; rw [h]; decide
  unfold SettingsType.Verify
  simp only [hp]
  split_ifs <;> simp_all

/-- When `Verify` accepts a Cloudflare record. -/
theorem verify_cloudflare_iff (regex : Regex) (str : Stringers) (settings : SettingsType)
    (hp : settings.Provider = PROVIDERCLOUDFLARE) :
    settings.Verify regex str = none ↔
      (regex.MatchDomain settings.Domain = true
        ∧ settings.Host ≠ ""
        ∧ (if settings.UserServiceKey = "" then
            regex.MatchCloudflareKey settings.Key = true
              ∧ regex.MatchEmail settings.Email = true
          else regex.MatchCloudflareUserServiceKey settings.UserServiceKey = true)
        ∧ settings.ZoneIdentifier ≠ ""
        ∧ settings.Identifier ≠ ""
        ∧ settings.IPmethod ≠ IPMETHODPROVIDER) := by
  have hH := len_eq_zero_iff settings.Host
  have hZ := len_eq_zero_iff settings.ZoneIdentifier
  have hI := len_eq_zero_iff settings.Identifier
  unfold SettingsType.Verify
  simp only [hp]
  split_ifs <;> simp_all

/-- No record of a provider outside the five passes `Verify`. -/
theorem verify_other_ne_none (regex : Regex) (str : Stringers) (settings : SettingsType)
    (code : Nat) (hp : settings.Provider = ProviderType.other code) :
    settings.Verify regex str ≠ none := by
  unfold SettingsType.Verify
  simp only [hp]
  split_ifs <;> simp

/-- The anchor that `toHTML` builds around an IP is never the placeholder `"N/A"`. -/
theorem anchor_ne_NA (ip : string) :
    "<a href=\"https://ipinfo.io/" ++ ip ++ "\">" ++ ip ++ "</a>" ≠ "N/A" := by
  intro h
  have hd := congrArg (fun t : String => t.data.head?) h
  simp [String.data_append] at hd

/-- Writing to a slice element writes to the backing array. -/
theorem array_store (heap : Heap) (s : Slice) (i : Nat) (v : string) :
    (heap.store s i v).array s = (heap.array s).set (s.off + i) v := by
  unfold Heap.store Heap.array
  by_cases hp : s.ptr < heap.arrays.length
  · simp [List.getD, hp]
  · have h1 : heap.arrays[s.ptr]? = none := List.getElem?_eq_none (by omega)
    simp [List.getD, h1, List.getElem?_set, hp]

/-- The elements of a slice after a write to one of them. -/
theorem elems_store (heap : Heap) (s : Slice) (i : Nat) (v : string) :
    (heap.store s i v).elems s = (heap.elems s).set i v := by
  unfold Heap.elems
  rw [array_store, ← List.set_drop, List.set_take]

/-- Within its length, indexing a slice reads its element. -/
theorem index_eq_elems (heap : Heap) (s : Slice) (i : Nat) (hi : i < s.len) :
    heap.index s i = (heap.elems s).getD i "" := by
  unfold Heap.index Heap.elems
  simp [List.getD, List.getElem?_take, List.getElem?_drop, hi]

/-- A valid slice has as many elements as its length says. -/
theorem length_elems (heap : Heap) (s : Slice) (hv : heap.valid s) :
    (heap.elems s).length = s.len := by
  unfold Heap.valid at hv
  unfold Heap.elems
  simp
  omega

/-- One iteration of the loop of `toHTML`, on lists. -/
theorem separated_step (l : List string) (i : Nat) (hi : i + 1 < l.length) :
    (l.set i (l.getD i "" ++ ", ")).take (i + 1)
        ++ separated ((l.set i (l.getD i "" ++ ", ")).drop (i + 1))
      = l.take i ++ separated (l.drop i) := by
  induction l generalizing i with
  | nil => simp at hi
  | cons x l ih =>
    cases i with
    | zero =>
      cases l with
      | nil => simp at hi
      | cons y rest => simp [separated]
    | succ j =>
      have hj : j + 1 < l.length := by simpa using hi
      have := ih j hj
      simpa using this

/-- What the loop of `toHTML` leaves in the slice it runs over, `remaining` iterations
before its end. -/
theorem toHTMLLoop_elems (s : Slice) (remaining : Nat) :
    ∀ heap : Heap, remaining ≤ s.len → (heap.elems s).length = s.len →
      (toHTMLLoop s remaining heap).elems s
        = (heap.elems s).take (s.len - remaining)
            ++ separated ((heap.elems s).drop (s.len - remaining)) := by
  induction remaining with
  | zero =>
    intro heap _ hl
    simp [toHTMLLoop, ← hl, separated]
  | succ k ih =>
    intro heap hk hl
    unfold toHTMLLoop
    by_cases hlast : s.len - (k + 1) = s.len - 1
    · simp only [hlast, if_true]
      have hdrop : (heap.elems s).drop (s.len - 1) = [(heap.elems s).getD (s.len - 1) ""] := by
        apply List.ext_getElem?
        intro j
        cases j with
        | zero =>
          have : s.len - 1 < (heap.elems s).length := by omega
          simp [List.getElem?_drop, List.getD, List.getElem?_eq_getElem this]
        | succ j =>
          have : (heap.elems s).length ≤ s.len - 1 + (j + 1) := by omega
          simp [List.getElem?_drop, List.getElem?_eq_none this]
      rw [hdrop]
      simp only [separated]
      rw [← hdrop, List.take_append_drop]
    · simp only [hlast, if_false]
      have hi : s.len - (k + 1) < s.len := by omega
      have hl1 : ((heap.store s (s.len - (k + 1))
          (heap.index s (s.len - (k + 1)) ++ ", ")).elems s).length = s.len := by
        rw [elems_store, List.length_set, hl]
      rw [ih _ (by omega) hl1, elems_store, index_eq_elems heap s _ hi]
      have hidx : s.len - k = (s.len - (k + 1)) + 1 := by omega
      rw [hidx]
      exact separated_step (heap.elems s) (s.len - (k + 1)) (by omega)

/-- The elements of `s[1:]` are the elements of `s` but the first. -/
theorem elems_from1 (heap : Heap) (s : Slice) :
    heap.elems s.from1 = (heap.elems s).drop 1 := by
  unfold Heap.elems Heap.array Slice.from1
  simp only [List.drop_take, List.drop_drop]

/-- The prior-IPs slice of the row of `toHTML`, read after the call: the entries of
`History.IPs` after the first with the separator appended to each but the last, or the
placeholder. -/
theorem toHTML_IPs_elems (d : Display) (str : Stringers) (heap : Heap)
    (conf : RecordConfigType) (hv : heap.valid conf.History.IPs) :
    (conf.toHTML d str heap).2.elems (conf.toHTML d str heap).1.IPs
      = if 1 < conf.History.IPs.len then separated ((heap.elems conf.History.IPs).drop 1)
        else ["N/A"] := by
  by_cases h : 1 < conf.History.IPs.len
  · have hl : (heap.elems conf.History.IPs.from1).length = conf.History.IPs.from1.len := by
      rw [elems_from1, List.length_drop, length_elems heap _ hv]
      rfl
    simp only [RecordConfigType.toHTML, gt_iff_lt, h, if_true]
    rw [toHTMLLoop_elems _ _ heap (Nat.le_refl _) hl]
    simp [elems_from1]
  · simp only [RecordConfigType.toHTML, gt_iff_lt, h, if_false]
    simp [Heap.alloc, Heap.elems, Heap.array, List.getD]

/-- Appending the separators keeps the number of elements. -/
theorem length_separated (l : List string) : (separated l).length = l.length := by
  induction l with
  | nil => rfl
  | cons x l ih =>
    cases l with
    | nil => rfl
    | cons y rest => simpa [separated] using ih

/-- A list of at most one element gets no separator. -/
theorem separated_short (l : List string) (h : l.length ≤ 1) : separated l = l := by
  cases l with
  | nil => rfl
  | cons x l =>
    cases l with
    | nil => rfl
    | cons y rest => simp at h

/-- Every element but the last gets the separator. -/
theorem getElem?_separated (l : List string) (i : Nat) (hi : i + 1 < l.length) :
    (separated l)[i]? = some (l.getD i "" ++ ", ") := by
  induction l generalizing i with
  | nil => simp at hi
  | cons x l ih =>
    cases l with
    | nil => simp at hi
    | cons y rest =>
      cases i with
      | zero => simp [separated]
      | succ j =>
        have hj : j + 1 < (y :: rest).length := by simpa using hi
        simpa [separated] using ih j hj

/-- The last element gets no separator. -/
theorem getElem?_separated_last (l : List string) (i : Nat) (hi : i + 1 = l.length) :
    (separated l)[i]? = some (l.getD i "") := by
  induction l generalizing i with
  | nil => simp at hi
  | cons x l ih =>
    cases l with
    | nil =>
      have : i = 0 := by simpa using hi
      subst this
      simp [separated]
    | cons y rest =>
      cases i with
      | zero => simp at hi
      | succ j =>
        have hj : j + 1 = (y :: rest).length := by simpa using hi
        simpa [separated] using ih j hj

/-- Concatenating after appending the separators, from an accumulator. -/
theorem foldl_separated (rest : List string) :
    ∀ (acc x : string),
      (separated (x :: rest)).foldl (fun r t => r ++ t) acc
        = String.intercalate.go (acc ++ x) ", " rest := by
  induction rest with
  | nil =>
    intro acc x
    simp [separated, String.intercalate.go]
  | cons y rest ih =>
    intro acc x
    simp only [separated, List.foldl_cons, String.intercalate.go]
    rw [ih]
    simp only [String.append_assoc]

/-- Concatenating after appending the separators is joining with the separator. -/
theorem join_separated (l : List string) :
    String.join (separated l) = ", ".intercalate l := by
  cases l with
  | nil => rfl
  | cons x rest =>
    unfold String.join String.intercalate
    rw [foldl_separated]
    simp

/-! ## Properties of `Verify` -/

/-- C1: a GoDaddy, Dreamhost or Cloudflare record whose IP method is `IPMETHODPROVIDER`
is rejected by `Verify`, whatever its other fields. -/
theorem Verify_rejects_provider_method (regex : Regex) (str : Stringers)
    (settings : SettingsType)
    (hp : settings.Provider = PROVIDERGODADDY ∨ settings.Provider = PROVIDERDREAMHOST
      ∨ settings.Provider = PROVIDERCLOUDFLARE)
    (hm : settings.IPmethod = IPMETHODPROVIDER) :
    settings.Verify regex str ≠ none := by
  unfold SettingsType.Verify
  rcases hp with hp | hp | hp <;> simp only [hp, hm] <;> split_ifs <;> simp

/-- C1, at a concrete record: a GoDaddy record with valid domain, host, key and secret
and the IP method `IPMETHODPROVIDER`. -/
theorem Verify_rejects_provider_method_witness :
    (sampleGodaddy "@" IPMETHODPROVIDER).Verify sampleRegex sampleStringers ≠ none :=
  Verify_rejects_provider_method sampleRegex sampleStringers
    (sampleGodaddy "@" IPMETHODPROVIDER) (Or.inl rfl) rfl

/-- C2: a DuckDNS or Dreamhost record whose host is not `"@"` is rejected by `Verify`,
whatever its other fields. -/
theorem Verify_rejects_host_not_at (regex : Regex) (str : Stringers)
    (settings : SettingsType)
    (hp : settings.Provider = PROVIDERDUCKDNS ∨ settings.Provider = PROVIDERDREAMHOST)
    (hh : settings.Host ≠ "@") :
    settings.Verify regex str ≠ none := by
  unfold SettingsType.Verify
  rcases hp with hp | hp <;> simp only [hp] <;> split_ifs <;> simp

/-- C2, at a concrete record: a DuckDNS record with a valid domain and token and the
host `"www"`. -/
theorem Verify_rejects_host_not_at_witness :
    (sampleDuckDNS "www" IPMETHODDUCKDUCKGO).Verify sampleRegex sampleStringers ≠ none :=
  Verify_rejects_host_not_at sampleRegex sampleStringers
    (sampleDuckDNS "www" IPMETHODDUCKDUCKGO) (Or.inl rfl) (by decide)

/-- C3: a Cloudflare record passes `Verify` exactly when its domain matches, its host is
non-empty, the authentication scheme selected by the emptiness of `UserServiceKey` is
valid (key and email when it is empty, the user service key alone otherwise), the zone
identifier and the identifier are non-empty and the IP method is not
`IPMETHODPROVIDER`. -/
theorem Verify_cloudflare_accepts_iff (regex : Regex) (str : Stringers) (settings : SettingsType)
    (hp : settings.Provider = PROVIDERCLOUDFLARE) :
    settings.Verify regex str = none ↔
      (regex.MatchDomain settings.Domain = true
        ∧ settings.Host ≠ ""
        ∧ (if settings.UserServiceKey = "" then
            regex.MatchCloudflareKey settings.Key = true
              ∧ regex.MatchEmail settings.Email = true
          else regex.MatchCloudflareUserServiceKey settings.UserServiceKey = true)
        ∧ settings.ZoneIdentifier ≠ ""
        ∧ settings.Identifier ≠ ""
        ∧ settings.IPmethod ≠ IPMETHODPROVIDER) :=
  verify_cloudflare_iff regex str settings hp

/-- C3, at a concrete record: a Cloudflare record authenticated by a user service key,
with empty key and email. -/
theorem Verify_cloudflare_accepts_iff_witness :
    (sampleCloudflareUSK IPMETHODOPENDNS).Verify sampleRegex sampleStringers = none ↔
      (sampleRegex.MatchDomain (sampleCloudflareUSK IPMETHODOPENDNS).Domain = true
        ∧ (sampleCloudflareUSK IPMETHODOPENDNS).Host ≠ ""
        ∧ (if (sampleCloudflareUSK IPMETHODOPENDNS).UserServiceKey = "" then
            sampleRegex.MatchCloudflareKey (sampleCloudflareUSK IPMETHODOPENDNS).Key = true
              ∧ sampleRegex.MatchEmail (sampleCloudflareUSK IPMETHODOPENDNS).Email = true
          else sampleRegex.MatchCloudflareUserServiceKey
            (sampleCloudflareUSK IPMETHODOPENDNS).UserServiceKey = true)
        ∧ (sampleCloudflareUSK IPMETHODOPENDNS).ZoneIdentifier ≠ ""
        ∧ (sampleCloudflareUSK IPMETHODOPENDNS).Identifier ≠ ""
        ∧ (sampleCloudflareUSK IPMETHODOPENDNS).IPmethod ≠ IPMETHODPROVIDER) :=
  Verify_cloudflare_accepts_iff sampleRegex sampleStringers
    (sampleCloudflareUSK IPMETHODOPENDNS) rfl

/-- C4: for a Cloudflare record with a valid domain, a non-empty host, zone identifier
and identifier and an IP method other than `IPMETHODPROVIDER`, the credential grammars
rejecting the empty string: with key, email and user service key all empty `Verify`
fails; with a valid key and email and an empty user service key it returns `nil`; with
a valid user service key and empty key and email it returns `nil`. -/
theorem Verify_cloudflare_schemes (regex : Regex) (str : Stringers)
    (settings : SettingsType)
    (hp : settings.Provider = PROVIDERCLOUDFLARE)
    (hd : regex.MatchDomain settings.Domain = true)
    (hh : settings.Host ≠ "")
    (hz : settings.ZoneIdentifier ≠ "")
    (hi : settings.Identifier ≠ "")
    (hm : settings.IPmethod ≠ IPMETHODPROVIDER)
    (hkey : regex.MatchCloudflareKey "" = false)
    (husk : regex.MatchCloudflareUserServiceKey "" = false) :
    (settings.Key = "" ∧ settings.Email = "" ∧ settings.UserServiceKey = ""
        → settings.Verify regex str ≠ none)
      ∧ (regex.MatchCloudflareKey settings.Key = true
          ∧ regex.MatchEmail settings.Email = true ∧ settings.UserServiceKey = ""
        → settings.Verify regex str = none)
      ∧ (regex.MatchCloudflareUserServiceKey settings.UserServiceKey = true
          ∧ settings.Key = "" ∧ settings.Email = ""
        → settings.Verify regex str = none) := by
  have hiff := verify_cloudflare_iff regex str settings hp
  refine ⟨?_, ?_, ?_⟩
  · rintro ⟨hk, _, hu⟩ h
    have := (hiff.mp h).2.2.1
    simp [hu, hk, hkey] at this
  · rintro ⟨hk, he, hu⟩
    exact hiff.mpr ⟨hd, hh, by simp [hu, hk, he], hz, hi, hm⟩
  · rintro ⟨hu, _, _⟩
    have hne : settings.UserServiceKey ≠ "" := by
      intro h
      rw [h, husk] at hu
      exact Bool.false_ne_true hu
    exact hiff.mpr ⟨hd, hh, by simp [hne, hu], hz, hi, hm⟩

/-- C4, at a concrete record: a Cloudflare record authenticated by key and email. -/
theorem Verify_cloudflare_schemes_witness :
    ((sampleCloudflareKey IPMETHODOPENDNS).Key = ""
        ∧ (sampleCloudflareKey IPMETHODOPENDNS).Email = ""
        ∧ (sampleCloudflareKey IPMETHODOPENDNS).UserServiceKey = ""
        → (sampleCloudflareKey IPMETHODOPENDNS).Verify sampleRegex sampleStringers ≠ none)
      ∧ (sampleRegex.MatchCloudflareKey (sampleCloudflareKey IPMETHODOPENDNS).Key = true
          ∧ sampleRegex.MatchEmail (sampleCloudflareKey IPMETHODOPENDNS).Email = true
          ∧ (sampleCloudflareKey IPMETHODOPENDNS).UserServiceKey = ""
        → (sampleCloudflareKey IPMETHODOPENDNS).Verify sampleRegex sampleStringers = none)
      ∧ (sampleRegex.MatchCloudflareUserServiceKey
            (sampleCloudflareKey IPMETHODOPENDNS).UserServiceKey = true
          ∧ (sampleCloudflareKey IPMETHODOPENDNS).Key = ""
          ∧ (sampleCloudflareKey IPMETHODOPENDNS).Email = ""
        → (sampleCloudflareKey IPMETHODOPENDNS).Verify sampleRegex sampleStringers = none) :=
  Verify_cloudflare_schemes sampleRegex sampleStringers (sampleCloudflareKey IPMETHODOPENDNS)
    rfl (by decide) (by decide) (by decide) (by decide) (by decide) (by decide) (by decide)

/-- C5, evaluated on a Cloudflare record whose only defect is an empty zone identifier:
`Verify` returns the fixed text "Cloudflare zone identifier was not provided", which
contains neither the summary `settings.String()` nor the record's domain. -/
theorem Verify_zone_identifier_message :
    ({ sampleCloudflareKey IPMETHODOPENDNS with ZoneIdentifier := "" } :
        SettingsType).Verify sampleRegex sampleStringers
        = some "Cloudflare zone identifier was not provided"
      ∧ ({ sampleCloudflareKey IPMETHODOPENDNS with ZoneIdentifier := "" } :
          SettingsType).String sampleStringers = "example.com | www | cloudflare | opendns"
      ∧ ¬ Contains "Cloudflare zone identifier was not provided"
          "example.com | www | cloudflare | opendns"
      ∧ ¬ Contains "Cloudflare zone identifier was not provided" "example.com" := by
  refine ⟨by decide, by decide, by decide, by decide⟩

/-- C6: the decision table of `Verify` for the four providers other than Cloudflare. -/
theorem Verify_decision_table (regex : Regex) (str : Stringers) (settings : SettingsType) :
    (settings.Provider = PROVIDERNAMECHEAP →
        (settings.Verify regex str = none ↔
          regex.MatchDomain settings.Domain = true ∧ settings.Host ≠ ""
            ∧ regex.MatchNamecheapPassword settings.Password = true))
      ∧ (settings.Provider = PROVIDERGODADDY →
        (settings.Verify regex str = none ↔
          regex.MatchDomain settings.Domain = true ∧ settings.Host ≠ ""
            ∧ regex.MatchGodaddyKey settings.Key = true
            ∧ regex.MatchGodaddySecret settings.Secret = true
            ∧ settings.IPmethod ≠ IPMETHODPROVIDER))
      ∧ (settings.Provider = PROVIDERDUCKDNS →
        (settings.Verify regex str = none ↔
          regex.MatchDomain settings.Domain = true
            ∧ regex.MatchDuckDNSToken settings.Token = true
            ∧ settings.Host = "@"))
      ∧ (settings.Provider = PROVIDERDREAMHOST →
        (settings.Verify regex str = none ↔
          regex.MatchDomain settings.Domain = true
            ∧ regex.MatchDreamhostKey settings.Key = true
            ∧ settings.Host = "@"
            ∧ settings.IPmethod ≠ IPMETHODPROVIDER)) :=
  ⟨verify_namecheap_iff regex str settings, verify_godaddy_iff regex str settings,
    verify_duckdns_iff regex str settings, verify_dreamhost_iff regex str settings⟩

/-- C6, at a concrete record: a GoDaddy record with valid domain, host, key and
secret and the IP method OpenDNS, which the table accepts. -/
theorem Verify_decision_table_witness :
    (sampleGodaddy "@" IPMETHODOPENDNS).Verify sampleRegex sampleStringers = none :=
  ((Verify_decision_table sampleRegex sampleStringers
    (sampleGodaddy "@" IPMETHODOPENDNS)).2.1 rfl).mpr
    ⟨by decide, by decide, by decide, by decide, by decide⟩

/-- C7: a record whose provider is none of the five is rejected by `Verify`, and when
its domain matches and its host is non-empty the error is
"provider <Provider> is not supported". -/
theorem Verify_unsupported_provider (regex : Regex) (str : Stringers)
    (settings : SettingsType)
    (h1 : settings.Provider ≠ PROVIDERNAMECHEAP)
    (h2 : settings.Provider ≠ PROVIDERGODADDY)
    (h3 : settings.Provider ≠ PROVIDERDUCKDNS)
    (h4 : settings.Provider ≠ PROVIDERDREAMHOST)
    (h5 : settings.Provider ≠ PROVIDERCLOUDFLARE) :
    settings.Verify regex str ≠ none
      ∧ (regex.MatchDomain settings.Domain = true → settings.Host ≠ "" →
          settings.Verify regex str
            = some ("provider " ++ str.provider settings.Provider ++ " is not supported")) := by
  have hH := len_eq_zero_iff settings.Host
  obtain ⟨code, hcode⟩ : ∃ code, settings.Provider = ProviderType.other code := by
    cases hprov : settings.Provider with
    | other code => exact ⟨code, rfl⟩
    | _ => first
      | exact absurd hprov h1 | exact absurd hprov h2 | exact absurd hprov h3
      | exact absurd hprov h4 | exact absurd hprov h5
  unfold SettingsType.Verify
  simp only [hcode]
  constructor
  · split_ifs <;> simp
  · intro hd hh
    simp [hd, hH, hh]

/-- C7, at a concrete record: provider value `other 7`, valid domain, host `"@"`. -/
theorem Verify_unsupported_provider_witness :
    sampleUnknown.Verify sampleRegex sampleStringers ≠ none
      ∧ (sampleRegex.MatchDomain sampleUnknown.Domain = true → sampleUnknown.Host ≠ "" →
          sampleUnknown.Verify sampleRegex sampleStringers
            = some ("provider " ++ sampleStringers.provider sampleUnknown.Provider
                ++ " is not supported")) :=
  Verify_unsupported_provider sampleRegex sampleStringers sampleUnknown
    (by decide) (by decide) (by decide) (by decide) (by decide)

/-- C9: for a DuckDNS record whose domain and token match their grammars, `Verify`
returns `nil` when the host is `"@"` (whatever the IP method), and with the same fields
but a non-empty host other than `"@"` it returns exactly the host-constraint error
"the host <Host> can only be @ for settings <summary>". -/
theorem Verify_duckdns_host (regex : Regex) (str : Stringers) (settings : SettingsType)
    (host : string)
    (hp : settings.Provider = PROVIDERDUCKDNS)
    (hd : regex.MatchDomain settings.Domain = true)
    (ht : regex.MatchDuckDNSToken settings.Token = true) :
    ({ settings with Host := "@" } : SettingsType).Verify regex str = none
      ∧ (host ≠ "" → host ≠ "@" →
          ({ settings with Host := host } : SettingsType).Verify regex str
            = some ("the host " ++ host ++ " can only be @ for settings "
                ++ ({ settings with Host := host } : SettingsType).String str)) := by
  have hH := len_eq_zero_iff host
  have hat : len "@" = 0 ↔ False := by decide
  unfold SettingsType.Verify
  constructor
  · simp [hp, hd, ht, hat]
  · intro h0 h1
    simp [hp, hd, ht, hH, h0, h1]

/-- C9, at the record of the spec's example: domain `example.com`, token
`valid-token-format`, IP method DuckDuckGo, hosts `"@"` and `"www"`. -/
theorem Verify_duckdns_host_witness :
    (sampleDuckDNS "@" IPMETHODDUCKDUCKGO).Verify sampleRegex sampleStringers = none
      ∧ (sampleDuckDNS "www" IPMETHODDUCKDUCKGO).Verify sampleRegex sampleStringers
          = some "the host www can only be @ for settings example.com | www | duckdns | duckduckgo" :=
  ⟨(Verify_duckdns_host sampleRegex sampleStringers (sampleDuckDNS "@" IPMETHODDUCKDUCKGO)
      "www" rfl (by decide) (by decide)).1,
    (Verify_duckdns_host sampleRegex sampleStringers (sampleDuckDNS "@" IPMETHODDUCKDUCKGO)
      "www" rfl (by decide) (by decide)).2 (by decide) (by decide)⟩

/-- C8: if `Verify` accepts a minimal record, then replacing one single required field
by the empty string or by a value that fails that field's grammar gives a record that
`Verify` rejects (the grammars rejecting the empty string). -/
theorem Verify_rejects_single_defect (regex : Regex) (str : Stringers)
    (settings : SettingsType) (f : Field) (v : string)
    (hempty : regex.rejectsEmpty)
    (hmin : settings.minimal)
    (hok : settings.Verify regex str = none)
    (hreq : settings.required f = true)
    (hbad : v = "" ∨ matchesGrammar regex settings.Provider f v = false) :
    (settings.set f v).Verify regex str ≠ none := by
  obtain ⟨e1, e2, e3, e4, e5, e6, e7, e8, e9⟩ := hempty
  intro hnew
  cases hprov : settings.Provider with
  | PROVIDERNAMECHEAP =>
    have hp' : (settings.set f v).Provider = PROVIDERNAMECHEAP := by
      cases f <;> simpa [SettingsType.set] using hprov
    rw [verify_namecheap_iff regex str _ hp'] at hnew
    rw [verify_namecheap_iff regex str _ hprov] at hok
    cases f <;> simp_all [SettingsType.set, SettingsType.required, matchesGrammar]
  | PROVIDERGODADDY =>
    have hp' : (settings.set f v).Provider = PROVIDERGODADDY := by
      cases f <;> simpa [SettingsType.set] using hprov
    rw [verify_godaddy_iff regex str _ hp'] at hnew
    rw [verify_godaddy_iff regex str _ hprov] at hok
    cases f <;> simp_all [SettingsType.set, SettingsType.required, matchesGrammar]
  | PROVIDERDUCKDNS =>
    have hp' : (settings.set f v).Provider = PROVIDERDUCKDNS := by
      cases f <;> simpa [SettingsType.set] using hprov
    rw [verify_duckdns_iff regex str _ hp'] at hnew
    rw [verify_duckdns_iff regex str _ hprov] at hok
    cases f <;> simp_all [SettingsType.set, SettingsType.required, matchesGrammar]
  | PROVIDERDREAMHOST =>
    have hp' : (settings.set f v).Provider = PROVIDERDREAMHOST := by
      cases f <;> simpa [SettingsType.set] using hprov
    rw [verify_dreamhost_iff regex str _ hp'] at hnew
    rw [verify_dreamhost_iff regex str _ hprov] at hok
    cases f <;> simp_all [SettingsType.set, SettingsType.required, matchesGrammar]
  | PROVIDERCLOUDFLARE =>
    have hp' : (settings.set f v).Provider = PROVIDERCLOUDFLARE := by
      cases f <;> simpa [SettingsType.set] using hprov
    rw [verify_cloudflare_iff regex str _ hp'] at hnew
    rw [verify_cloudflare_iff regex str _ hprov] at hok
    have hkey := hmin Field.Key
    have hemail := hmin Field.Email
    cases f <;> simp_all [SettingsType.set, SettingsType.required, matchesGrammar,
      SettingsType.get]
  | other code => exact verify_other_ne_none regex str settings code hprov hok

/-- C8, at a concrete record: the Cloudflare record authenticated by a user service key
alone is accepted, and is rejected once its user service key is replaced by the empty
string. -/
theorem Verify_rejects_single_defect_witness :
    (sampleCloudflareUSK IPMETHODOPENDNS).Verify sampleRegex sampleStringers = none
      ∧ ((sampleCloudflareUSK IPMETHODOPENDNS).set Field.UserServiceKey "").Verify
          sampleRegex sampleStringers ≠ none :=
  ⟨by decide,
    Verify_rejects_single_defect sampleRegex sampleStringers
      (sampleCloudflareUSK IPMETHODOPENDNS) Field.UserServiceKey ""
      (by unfold Regex.rejectsEmpty; decide)
      (by intro f; cases f <;> decide)
      (by decide) (by decide) (Or.inl rfl)⟩

/-- C10: `Verify` leaves the record unchanged, and two records that agree on `Domain`,
`Host`, `Provider`, `IPmethod` and on the credential fields of their provider get the
same result from `Verify` (`nil`, or an error with the same text), whatever their other
fields. -/
theorem Verify_depends_on_meaningful_fields (regex : Regex) (str : Stringers)
    (a b : SettingsType) (h : a.agree b) :
    (a.VerifyStep regex str).1 = a
      ∧ (b.VerifyStep regex str).1 = b
      ∧ (a.VerifyStep regex str).2 = (b.VerifyStep regex str).2 := by
  refine ⟨rfl, rfl, ?_⟩
  obtain ⟨hd, hh, hp, hm, hc⟩ := h
  simp only [SettingsType.VerifyStep, SettingsType.Verify, SettingsType.String]
  rw [← hd, ← hh, ← hp, ← hm]
  cases hprov : a.Provider <;> simp only [hprov] at hc ⊢
  · rw [hc]
  · rw [hc.1, hc.2]
  · rw [hc]
  · rw [hc]
  · rw [hc.1, hc.2.1, hc.2.2.1, hc.2.2.2.1, hc.2.2.2.2]

/-- C10, at two concrete GoDaddy records that differ in `Delay`, `NoDNSLookup`,
`Proxied` and in every credential field that is not GoDaddy's: both are rejected with
the same text. -/
theorem Verify_depends_on_meaningful_fields_witness :
    ((sampleGodaddy "@" IPMETHODPROVIDER).VerifyStep sampleRegex sampleStringers).1
        = sampleGodaddy "@" IPMETHODPROVIDER
      ∧ (sampleGodaddyOther.VerifyStep sampleRegex sampleStringers).1 = sampleGodaddyOther
      ∧ ((sampleGodaddy "@" IPMETHODPROVIDER).VerifyStep sampleRegex sampleStringers).2
        = (sampleGodaddyOther.VerifyStep sampleRegex sampleStringers).2 :=
  Verify_depends_on_meaningful_fields sampleRegex sampleStringers
    (sampleGodaddy "@" IPMETHODPROVIDER) sampleGodaddyOther
    ⟨rfl, rfl, rfl, rfl, rfl, rfl⟩

/-! ## Properties of `recordconfig.go` and of `BuildDomainName` -/

/-- C11, evaluated on a record with three IPs: after `toHTML` the caller's
`History.IPs` reads `["1.1.1.1", "2.2.2.2, ", "3.3.3.3"]`, its element 1 having been
overwritten through the shared backing array, and a second `toHTML` on the same record
gives a different `IPs` field (`"2.2.2.2, , "` where the first gave `"2.2.2.2, "`). -/
theorem toHTML_overwrites_history :
    (sampleHeap threeIPs).elems (sampleRecord threeIPs 0 "ok").History.IPs
        = ["1.1.1.1", "2.2.2.2", "3.3.3.3"]
      ∧ (((sampleRecord threeIPs 0 "ok").toHTML sampleDisplay sampleStringers
          (sampleHeap threeIPs)).2).elems (sampleRecord threeIPs 0 "ok").History.IPs
        = ["1.1.1.1", "2.2.2.2, ", "3.3.3.3"]
      ∧ (((sampleRecord threeIPs 0 "ok").toHTML sampleDisplay sampleStringers
          (sampleHeap threeIPs)).2).elems
            ((sampleRecord threeIPs 0 "ok").toHTML sampleDisplay sampleStringers
              (sampleHeap threeIPs)).1.IPs
        = ["2.2.2.2, ", "3.3.3.3"]
      ∧ (((sampleRecord threeIPs 0 "ok").toHTML sampleDisplay sampleStringers
          (((sampleRecord threeIPs 0 "ok").toHTML sampleDisplay sampleStringers
            (sampleHeap threeIPs)).2)).2).elems
            ((sampleRecord threeIPs 0 "ok").toHTML sampleDisplay sampleStringers
              (((sampleRecord threeIPs 0 "ok").toHTML sampleDisplay sampleStringers
                (sampleHeap threeIPs)).2)).1.IPs
        = ["2.2.2.2, , ", "3.3.3.3"] := by
  refine ⟨by decide, by decide, by decide, by decide⟩

/-- C13: the field `IP` of the row is `"N/A"` exactly when `History.IPs` is empty;
otherwise it is the anchor built from `History.IPs[0]` alone, so two records with the
same first IP get the same `IP` field whatever their later entries. -/
theorem toHTML_current_IP (d : Display) (str : Stringers) (heap : Heap)
    (conf : RecordConfigType) :
    ((conf.toHTML d str heap).1.IP = "N/A" ↔ conf.History.IPs.len = 0)
      ∧ (0 < conf.History.IPs.len →
          (conf.toHTML d str heap).1.IP
            = "<a href=\"https://ipinfo.io/" ++ heap.index conf.History.IPs 0 ++ "\">"
                ++ heap.index conf.History.IPs 0 ++ "</a>")
      ∧ (∀ (heap2 : Heap) (conf2 : RecordConfigType),
          0 < conf.History.IPs.len → 0 < conf2.History.IPs.len →
          heap.index conf.History.IPs 0 = heap2.index conf2.History.IPs 0 →
          (conf.toHTML d str heap).1.IP = (conf2.toHTML d str heap2).1.IP) := by
  refine ⟨?_, ?_, ?_⟩
  · by_cases h : 0 < conf.History.IPs.len
    · have hne := anchor_ne_NA (heap.index conf.History.IPs 0)
      simp only [RecordConfigType.toHTML, gt_iff_lt, h, if_true]
      constructor
      · intro h1; exact absurd h1 hne
      · intro h0; omega
    · have h0 : conf.History.IPs.len = 0 := by omega
      simp [RecordConfigType.toHTML, h0]
  · intro h
    simp [RecordConfigType.toHTML, h]
  · intro heap2 conf2 h h2 he
    simp [RecordConfigType.toHTML, h, h2, he]

/-- C14: when `Status.Code` is `UPTODATE` the rendered status is that of the message
`"No IP change for " + durationString(History.TSuccess)`, and the whole result of
`toHTML` is the same whatever the stored `Status.Message`; for any other code the stored
status, message included, is what is rendered. -/
theorem toHTML_status (d : Display) (str : Stringers) (heap : Heap)
    (conf : RecordConfigType) :
    (conf.Status.Code = d.UPTODATE →
        (conf.toHTML d str heap).1.Status
            = d.statusToHTML
                { Code := d.UPTODATE
                  Message := "No IP change for " ++ d.durationString conf.History.TSuccess }
          ∧ ∀ message : string,
              RecordConfigType.toHTML d str heap
                  { conf with Status := { conf.Status with Message := message } }
                = conf.toHTML d str heap)
      ∧ (conf.Status.Code ≠ d.UPTODATE →
        (conf.toHTML d str heap).1.Status = d.statusToHTML conf.Status) := by
  constructor
  · intro h
    constructor
    · simp [RecordConfigType.toHTML, h]
    · intro message
      simp [RecordConfigType.toHTML, h]
  · intro h
    simp [RecordConfigType.toHTML, h]

/-- C15: `BuildDomainName` returns `Domain` for the host `"@"` and for the host `"*"`
(so both hosts give the same name for the same domain), and `Host + "." + Domain` for
every other host, the empty one included; it leaves the settings unchanged. -/
theorem BuildDomainName_cases (settings : SettingsType) :
    (settings.Host = "@" → settings.BuildDomainName = settings.Domain)
      ∧ (settings.Host = "*" → settings.BuildDomainName = settings.Domain)
      ∧ ({ settings with Host := "*" } : SettingsType).BuildDomainName
          = ({ settings with Host := "@" } : SettingsType).BuildDomainName
      ∧ (settings.Host ≠ "@" → settings.Host ≠ "*" →
          settings.BuildDomainName = settings.Host ++ "." ++ settings.Domain)
      ∧ ({ settings with Host := "" } : SettingsType).BuildDomainName
          = "" ++ "." ++ settings.Domain
      ∧ settings.BuildDomainNameStep.1 = settings := by
  refine ⟨?_, ?_, ?_, ?_, ?_, rfl⟩
  · intro h
    simp [SettingsType.BuildDomainName, h]
  · intro h
    simp [SettingsType.BuildDomainName, h]
  · simp [SettingsType.BuildDomainName]
  · intro h1 h2
    simp [SettingsType.BuildDomainName, h1, h2]
  · simp [SettingsType.BuildDomainName]

/-- C16: `NewRecordConfig(settings, IPs, tSuccess)` returns a record whose `Settings` is
`settings`, whose `History.IPs` is the slice `IPs` (with the same elements in the same
order, the `nil` slice included), whose `History.TSuccess` is `tSuccess` and whose
`Status` is the zero status. -/
theorem NewRecordConfig_fields (heap : Heap) (settings : SettingsType) (IPs : Slice)
    (tSuccess : Time) :
    (NewRecordConfig heap settings IPs tSuccess).1.Settings = settings
      ∧ (NewRecordConfig heap settings IPs tSuccess).1.History.IPs = IPs
      ∧ (NewRecordConfig heap settings IPs tSuccess).2.elems
          (NewRecordConfig heap settings IPs tSuccess).1.History.IPs = heap.elems IPs
      ∧ (NewRecordConfig heap settings Slice.nil tSuccess).2.elems
          (NewRecordConfig heap settings Slice.nil tSuccess).1.History.IPs = []
      ∧ (NewRecordConfig heap settings IPs tSuccess).1.History.TSuccess = tSuccess
      ∧ (NewRecordConfig heap settings IPs tSuccess).1.Status
          = { Code := 0, Message := "" } := by
  refine ⟨rfl, rfl, rfl, ?_, rfl, rfl⟩
  simp [NewRecordConfig, Heap.newMutex, Heap.elems, Slice.nil]

/-- C12, at a record with three IPs: the row's `IPs` reads `["2.2.2.2, ", "3.3.3.3"]`,
which is not the list of the remaining entries `["2.2.2.2", "3.3.3.3"]` that the record
was given. -/
theorem toHTML_IPs_not_remaining_entries :
    (sampleHeap threeIPs).elems (sampleRecord threeIPs 1 "").History.IPs.from1
        = ["2.2.2.2", "3.3.3.3"]
      ∧ (((sampleRecord threeIPs 1 "").toHTML sampleDisplay sampleStringers
          (sampleHeap threeIPs)).2).elems
            ((sampleRecord threeIPs 1 "").toHTML sampleDisplay sampleStringers
              (sampleHeap threeIPs)).1.IPs
        ≠ (sampleHeap threeIPs).elems (sampleRecord threeIPs 1 "").History.IPs.from1 := by
  refine ⟨by decide, by decide⟩

/-- C12, amended: for a record whose `History.IPs` lies within its backing array, the
row's `IPs` is the list of the remaining entries `History.IPs[1:]` with `", "` appended
to each entry but the last when there are at least two entries (hence exactly
`History.IPs[1:]` when there are two), and is `["N/A"]` when there is at most one. -/
theorem toHTML_prior_IPs (d : Display) (str : Stringers) (heap : Heap)
    (conf : RecordConfigType) (hv : heap.valid conf.History.IPs) :
    (2 ≤ conf.History.IPs.len →
        (conf.toHTML d str heap).2.elems (conf.toHTML d str heap).1.IPs
          = separated (heap.elems conf.History.IPs.from1))
      ∧ (conf.History.IPs.len = 2 →
        (conf.toHTML d str heap).2.elems (conf.toHTML d str heap).1.IPs
          = heap.elems conf.History.IPs.from1)
      ∧ (conf.History.IPs.len ≤ 1 →
        (conf.toHTML d str heap).2.elems (conf.toHTML d str heap).1.IPs = ["N/A"]) := by
  have key := toHTML_IPs_elems d str heap conf hv
  have hlen := length_elems heap _ hv
  refine ⟨?_, ?_, ?_⟩
  · intro h
    rw [key, if_pos (by omega), elems_from1]
  · intro h
    rw [key, if_pos (by omega), elems_from1]
    exact separated_short _ (by rw [List.length_drop, hlen]; omega)
  · intro h
    rw [key, if_neg (by omega)]

/-- C12, amended, at the record with three IPs. -/
theorem toHTML_prior_IPs_witness :
    (((sampleRecord threeIPs 1 "").toHTML sampleDisplay sampleStringers
        (sampleHeap threeIPs)).2).elems
          ((sampleRecord threeIPs 1 "").toHTML sampleDisplay sampleStringers
            (sampleHeap threeIPs)).1.IPs
      = separated ((sampleHeap threeIPs).elems (sampleRecord threeIPs 1 "").History.IPs.from1) :=
  (toHTML_prior_IPs sampleDisplay sampleStringers (sampleHeap threeIPs)
    (sampleRecord threeIPs 1 "") (by decide)).1 (by decide)

/-- C20: for a record whose `History.IPs` has `n ≥ 2` entries (and lies within its
backing array), the row's `IPs` has `n - 1` elements, its `i`-th element is
`History.IPs[i+1]` followed by `", "` for every `i` but the last, its last element is
`History.IPs[n-1]` unchanged, and the concatenation of its elements is
`History.IPs[1:]` joined with `", "`. -/
theorem toHTML_IPs_separators (d : Display) (str : Stringers) (heap : Heap)
    (conf : RecordConfigType) (hv : heap.valid conf.History.IPs)
    (hn : 2 ≤ conf.History.IPs.len) :
    ((conf.toHTML d str heap).2.elems (conf.toHTML d str heap).1.IPs).length
        = conf.History.IPs.len - 1
      ∧ (∀ i : Nat, i + 2 < conf.History.IPs.len →
          ((conf.toHTML d str heap).2.elems (conf.toHTML d str heap).1.IPs)[i]?
            = some (heap.index conf.History.IPs (i + 1) ++ ", "))
      ∧ ((conf.toHTML d str heap).2.elems
            (conf.toHTML d str heap).1.IPs)[conf.History.IPs.len - 2]?
          = some (heap.index conf.History.IPs (conf.History.IPs.len - 1))
      ∧ String.join ((conf.toHTML d str heap).2.elems (conf.toHTML d str heap).1.IPs)
          = ", ".intercalate (heap.elems conf.History.IPs.from1) := by
  have key := toHTML_IPs_elems d str heap conf hv
  have hlen := length_elems heap _ hv
  rw [if_pos (by omega)] at key
  have hdl : ((heap.elems conf.History.IPs).drop 1).length = conf.History.IPs.len - 1 := by
    rw [List.length_drop, hlen]
  have hget : ∀ j : Nat, j + 1 < conf.History.IPs.len →
      ((heap.elems conf.History.IPs).drop 1).getD j "" = heap.index conf.History.IPs (j + 1) := by
    intro j hj
    rw [index_eq_elems heap _ _ hj]
    simp [List.getD, List.getElem?_drop, Nat.add_comm]
  rw [key, elems_from1]
  refine ⟨?_, ?_, ?_, ?_⟩
  · rw [length_separated, hdl]
  · intro i hi
    rw [getElem?_separated _ _ (by omega), hget i (by omega)]
  · rw [getElem?_separated_last _ _ (by omega), hget _ (by omega)]
    congr 2
    omega
  · exact join_separated _

/-- C20, at the record with three IPs: the row's `IPs` is `["2.2.2.2, ", "3.3.3.3"]`,
whose concatenation is `"2.2.2.2, 3.3.3.3"`. -/
theorem toHTML_IPs_separators_witness :
    String.join ((((sampleRecord threeIPs 1 "").toHTML sampleDisplay sampleStringers
        (sampleHeap threeIPs)).2).elems
          ((sampleRecord threeIPs 1 "").toHTML sampleDisplay sampleStringers
            (sampleHeap threeIPs)).1.IPs)
      = ", ".intercalate
          ((sampleHeap threeIPs).elems (sampleRecord threeIPs 1 "").History.IPs.from1) :=
  (toHTML_IPs_separators sampleDisplay sampleStringers (sampleHeap threeIPs)
    (sampleRecord threeIPs 1 "") (by decide) (by decide)).2.2.2

/-- C17: for a record whose `History.IPs` is non-empty, `applyOutcome` with `newIP`
equal to `ips[0]` leaves the IP list as it is (same elements, same length), and with a
different `newIP` gives `newIP` followed by the old list (one element more). -/
theorem applyOutcome_IPs (codeOf : Bool → statusCode) (now : Time) (heap : Heap)
    (conf : RecordConfigType) (newIP : string) (succeeded : Bool) (message : string)
    (hne : 0 < conf.History.IPs.len) :
    (heap.index conf.History.IPs 0 = newIP →
        (conf.applyOutcome codeOf now heap newIP succeeded message).1.History.IPs
            = conf.History.IPs
          ∧ (conf.applyOutcome codeOf now heap newIP succeeded message).2.elems
              (conf.applyOutcome codeOf now heap newIP succeeded message).1.History.IPs
            = heap.elems conf.History.IPs)
      ∧ (heap.index conf.History.IPs 0 ≠ newIP →
        (conf.applyOutcome codeOf now heap newIP succeeded message).2.elems
              (conf.applyOutcome codeOf now heap newIP succeeded message).1.History.IPs
            = newIP :: heap.elems conf.History.IPs
          ∧ ((conf.applyOutcome codeOf now heap newIP succeeded message).2.elems
              (conf.applyOutcome codeOf now heap newIP succeeded message).1.History.IPs).length
            = (heap.elems conf.History.IPs).length + 1) := by
  have halloc : ∀ xs : List string, (heap.alloc xs).2.elems (heap.alloc xs).1 = xs := by
    intro xs
    simp [Heap.alloc, Heap.elems, Heap.array, List.getD]
  constructor
  · intro h
    simp [RecordConfigType.applyOutcome, hne, h]
  · intro h
    simp only [RecordConfigType.applyOutcome, hne, h, and_false, if_false]
    rw [halloc]
    simp

/-- C17, at the spec's example: from the history `["1.2.3.4"]`, applying `"5.6.7.8"`
gives `["5.6.7.8", "1.2.3.4"]`. -/
theorem applyOutcome_IPs_witness :
    (((sampleRecord ["1.2.3.4"] 1 "").applyOutcome (fun ok => if ok then 1 else 0)
        1700000600 (sampleHeap ["1.2.3.4"]) "5.6.7.8" true "ok").2).elems
          ((sampleRecord ["1.2.3.4"] 1 "").applyOutcome (fun ok => if ok then 1 else 0)
            1700000600 (sampleHeap ["1.2.3.4"]) "5.6.7.8" true "ok").1.History.IPs
      = ["5.6.7.8", "1.2.3.4"] :=
  ((applyOutcome_IPs (fun ok => if ok then 1 else 0) 1700000600 (sampleHeap ["1.2.3.4"])
    (sampleRecord ["1.2.3.4"] 1 "") "5.6.7.8" true "ok" (by decide)).2 (by decide)).1

/-- C19: `Verify` returns the error of the first failing check in the fixed order
domain, host non-empty, credentials of the provider, `Host == "@"` (DuckDNS,
Dreamhost), IP method: an invalid domain gives the domain error whatever the other
fields, and with a valid domain an empty host gives the host error whatever the
provider and the credentials. -/
theorem Verify_first_failing_check (regex : Regex) (str : Stringers)
    (settings : SettingsType) :
    (regex.MatchDomain settings.Domain = false →
        settings.Verify regex str
          = some ("the domain name " ++ settings.Domain ++ " is not valid for settings "
              ++ settings.String str))
      ∧ (regex.MatchDomain settings.Domain = true → settings.Host = "" →
        settings.Verify regex str
          = some ("the host for entry " ++ settings.String str
              ++ " must have at least one character"))
      ∧ settings.Verify regex str = firstFailing (settings.orderedChecks regex str) := by
  have hH := len_eq_zero_iff settings.Host
  have hZ := len_eq_zero_iff settings.ZoneIdentifier
  have hI := len_eq_zero_iff settings.Identifier
  refine ⟨?_, ?_, ?_⟩
  · intro hd
    simp [SettingsType.Verify, hd]
  · intro hd hh
    have h0 : len settings.Host = 0 := hH.mpr hh
    simp [SettingsType.Verify, hd, h0]
  · unfold SettingsType.Verify SettingsType.orderedChecks SettingsType.credentialChecks
      SettingsType.hostAtChecks SettingsType.ipMethodChecks
    cases hp : settings.Provider <;>
      simp only [hp, beq_iff_eq, hH, hZ, hI] <;> split_ifs <;> simp_all [firstFailing]

end Models
